import Mathlib

/-!
Verification of the resilient authenticated API client of the Todolist
repository (`frontend/src/services/auth.js` and
`frontend/src/services/api.js`).

The JavaScript is embedded shallowly:

* `getAuthToken` (auth.js lines 283-319) becomes a pure function from the
  module state (`auth.currentUser`, `cachedToken`, `tokenExpiry`), the
  current clock value and the outcome of the external identity-provider
  fetch (`auth.currentUser.getIdToken(true)`) to a result record that also
  counts how many identity-provider calls were made.
* The axios request interceptor (api.js lines 34-53) becomes
  `requestInterceptor`; returning a value models the interceptor returning
  the (possibly header-less) config, i.e. the dispatch proceeding — the
  JavaScript interceptor has no rejection path, even its catch block
  returns the config.
* The axios response interceptor's 401 handling (api.js lines 76-113) and
  the retry wrapper `handleApiRequest` (api.js lines 127-196) become
  `interceptedCall` and `handleApiRequest`, with the dispatch outcomes of
  the transport supplied by an environment function indexed by a global
  dispatch counter.
* Concurrent invocations of `getAuthToken` under the JavaScript event
  loop are modelled as a small-step system (`doCheck` / `doSettle`) whose
  only suspension point is the `await` of the identity-provider fetch,
  executed under an explicit cooperative schedule.

Times are integers in milliseconds, statuses are naturals.
-/

namespace Todolist

/-! ## Token state and the identity-provider environment (auth.js) -/

/-- `TOKEN_REFRESH_THRESHOLD = 5 * 60 * 1000` (auth.js line 27): five
minutes, in milliseconds. -/
def TOKEN_REFRESH_THRESHOLD : Int := 5 * 60 * 1000

/-- Outcome of a successful `auth.currentUser.getIdToken(true)` call:
the token string together with the result of decoding the JWT payload's
`exp` claim (in seconds), `none` when `JSON.parse(atob(...))` throws. -/
structure FetchResult where
  token : String
  decodedExp : Option Int
  deriving Repr, DecidableEq

/-- Outcome of the external identity-provider fetch: a result, or a
rejection (the `catch` branch of `getAuthToken`). -/
inductive FetchOutcome where
  | ok (r : FetchResult)
  | err
  deriving Repr, DecidableEq

/-- The mutable module state of auth.js that `getAuthToken` reads and
writes: whether `auth && auth.currentUser` is non-null, plus the
`cachedToken` and `tokenExpiry` module variables (lines 25-26). -/
structure AuthState where
  signedIn : Bool
  cachedToken : Option String
  tokenExpiry : Int
  deriving Repr, DecidableEq

/-- JavaScript truthiness of the nullable `cachedToken` string: non-null
and non-empty. -/
def tokenTruthy : Option String → Bool
  | some t => t != ""
  | none => false

/-- Result of one `getAuthToken` call: the resolved value (a token string
or `null`), the updated module state, and the number of underlying
identity-provider calls the invocation made. -/
structure GATResult where
  ret : Option String
  state : AuthState
  providerCalls : Nat
  deriving Repr, DecidableEq

/-- The refresh path of `getAuthToken` (auth.js lines 299-318): one
`getIdToken(true)` call; on success store the token and decode its
expiry, defaulting to one hour from `now` when decoding fails; on
failure clear the cached token and resolve `null`. -/
def refreshSettle (now : Int) (fetch : FetchOutcome) (s : AuthState) : GATResult :=
  match fetch with
  | .err => ⟨none, { s with cachedToken := none }, 1⟩
  | .ok r =>
      let expiry : Int :=
        match r.decodedExp with
        | some e => e * 1000
        | none => now + 3600 * 1000
      ⟨some r.token, { s with cachedToken := some r.token, tokenExpiry := expiry }, 1⟩

/-- `getAuthToken(forceRefresh)` (auth.js lines 283-319). With no signed-in
user it clears the cache and resolves `null`; with a truthy cached token
satisfying `tokenExpiry > now + TOKEN_REFRESH_THRESHOLD` (and no forced
refresh) it resolves the cached token without contacting the provider;
otherwise it takes the refresh path. The function is total, mirroring the
try/catch that makes the JavaScript function non-throwing. -/
def getAuthToken (forceRefresh : Bool) (now : Int) (fetch : FetchOutcome)
    (s : AuthState) : GATResult :=
  if !s.signedIn then
    ⟨none, { s with cachedToken := none }, 0⟩
  else if !forceRefresh && tokenTruthy s.cachedToken
      && decide (s.tokenExpiry > now + TOKEN_REFRESH_THRESHOLD) then
    ⟨s.cachedToken, s, 0⟩
  else
    refreshSettle now fetch s

/-! ## The axios request interceptor (api.js lines 34-53) -/

/-- The per-request config bits the request interceptor looks at. -/
structure ReqConfig where
  noAuth : Bool
  deriving Repr, DecidableEq

/-- Result of the request interceptor: the `Authorization` bearer value it
attached (`none` when the request goes out without the header), the
updated auth module state, and the identity-provider calls made. A value
is always returned — every path of the JavaScript interceptor, including
its catch block, returns the config, so the dispatch always proceeds. -/
structure AttachResult where
  header : Option String
  state : AuthState
  providerCalls : Nat
  deriving Repr, DecidableEq

/-- The request interceptor: skip auth for `noAuth` configs, otherwise ask
`getAuthToken()` and attach the token as a bearer header only when it is
truthy; a `null` token merely logs a warning and the request proceeds
without the header. -/
def requestInterceptor (cfg : ReqConfig) (now : Int) (fetch : FetchOutcome)
    (s : AuthState) : AttachResult :=
  if cfg.noAuth then
    ⟨none, s, 0⟩
  else
    let r := getAuthToken false now fetch s
    if tokenTruthy r.ret then
      ⟨r.ret, r.state, r.providerCalls⟩
    else
      ⟨none, r.state, r.providerCalls⟩

/-! ## Concurrent `getAuthToken` calls under the event loop

`getAuthToken` suspends exactly once, at `await getIdToken(true)`; its
synchronous prefix (the signed-in check, the cache-freshness check and the
initiation of the fetch) and its settlement (storing the token) each run
atomically between suspension points. A schedule interleaves these phases
of several logical callers over the shared module state. -/

/-- Phase of one logical `getAuthToken()` caller. -/
inductive TaskState where
  | ready
  | fetching
  | finished (ret : Option String)
  deriving Repr, DecidableEq

/-- Shared state of the event-loop model: the auth module state, the
number of identity-provider calls issued so far, and the per-caller
phases. -/
structure ConcState where
  auth : AuthState
  providerCalls : Nat
  tasks : List TaskState
  deriving Repr, DecidableEq

/-- One scheduler action: run caller `i`'s synchronous prefix, or resume
caller `i` after its fetch settles. -/
inductive SchedStep where
  | check (i : Nat)
  | settle (i : Nat)
  deriving Repr, DecidableEq

/-- Run caller `i`'s synchronous prefix of `getAuthToken()` (no forced
refresh): finish immediately with `null` when no user is signed in, or
with the cached token when it is truthy and fresh; otherwise issue an
identity-provider call (counted here, where `getIdToken(true)` starts)
and suspend. -/
def doCheck (now : Int) (c : ConcState) (i : Nat) : ConcState :=
  match c.tasks[i]? with
  | some .ready =>
      let s := c.auth
      if !s.signedIn then
        { c with auth := { s with cachedToken := none },
                 tasks := c.tasks.set i (.finished none) }
      else if tokenTruthy s.cachedToken
          && decide (s.tokenExpiry > now + TOKEN_REFRESH_THRESHOLD) then
        { c with tasks := c.tasks.set i (.finished s.cachedToken) }
      else
        { c with providerCalls := c.providerCalls + 1,
                 tasks := c.tasks.set i .fetching }
  | _ => c

/-- Resume caller `i` after its identity-provider fetch settles, running
the settlement code of the refresh path over the shared state (the
provider call itself was counted when the fetch was initiated, so the
count field of `refreshSettle` is not re-added here). -/
def doSettle (now : Int) (fetch : FetchOutcome) (c : ConcState) (i : Nat) : ConcState :=
  match c.tasks[i]? with
  | some .fetching =>
      let r := refreshSettle now fetch c.auth
      { c with auth := r.state, tasks := c.tasks.set i (.finished r.ret) }
  | _ => c

/-- Run a cooperative schedule over the shared state. -/
def runSched (now : Int) (fetch : FetchOutcome) (c : ConcState) :
    List SchedStep → ConcState
  | [] => c
  | .check i :: rest => runSched now fetch (doCheck now c i) rest
  | .settle i :: rest => runSched now fetch (doSettle now fetch c i) rest

/-- Initial shared state for `n` concurrent callers: a signed-in user, no
cached token, no refresh pending. -/
def initConc (n : Nat) : ConcState :=
  ⟨⟨true, none, 0⟩, 0, List.replicate n .ready⟩

/-- The schedule in which all `n` callers run their synchronous prefix
before any fetch settles — the canonical "`n` concurrent `refresh()`
calls while no refresh is pending" interleaving. -/
def concurrentSchedule (n : Nat) : List SchedStep :=
  (List.range n).map SchedStep.check ++ (List.range n).map SchedStep.settle

/-! ## The transport environment and the response interceptor (api.js) -/

/-- `MAX_RETRIES = 2` (api.js line 25): additional wrapper attempts beyond
the first. -/
def MAX_RETRIES : Nat := 2

/-- `RETRY_DELAY = 800` milliseconds (api.js line 26). -/
def RETRY_DELAY : Nat := 800

/-- The parts of an axios `error.response` the client inspects: the
status, the status text and the optional `data.detail` field. -/
structure HttpResponse where
  status : Nat
  statusText : String
  detail : Option String
  deriving Repr, DecidableEq

/-- A raw axios error: an optional response (absent for network and
timeout failures) and the transport's `error.message`. -/
structure RawError where
  response : Option HttpResponse
  message : String
  deriving Repr, DecidableEq

/-- Outcome of one underlying dispatch of the transport. -/
inductive DispatchResult where
  | ok (body : String)
  | fail (e : RawError)
  deriving Repr, DecidableEq

/-- `pat` occurs as a contiguous run inside the character list. -/
def charsIncludes (pat : List Char) : List Char → Bool
  | [] => decide (pat = [])
  | c :: rest => pat.isPrefixOf (c :: rest) || charsIncludes pat rest

/-- JavaScript's `String.prototype.includes`: `pat` occurs in `s`. -/
def jsIncludes (s pat : String) : Bool :=
  charsIncludes pat.data s.data

/-- One call through the axios instance with the response interceptor's
401 handling (api.js lines 76-113), fed by the environment `env` mapping
the global dispatch index to that dispatch's outcome. On a 401 whose
config is not yet marked `__isRetryRequest`, the interceptor marks it,
waits out the stubbed 1000 ms "token refresh" (which performs no
identity-provider call), and re-dispatches the same config once; if the
retry also fails, the chain's catch rejects with the original error.
Returns the final outcome, the number of dispatches consumed, and the
refresh waits performed. -/
def interceptedCall (env : Nat → DispatchResult) (start : Nat) :
    DispatchResult × Nat × List Nat :=
  match env start with
  | .ok b => (.ok b, 1, [])
  | .fail e =>
      match e.response with
      | some r =>
          if r.status == 401 then
            match env (start + 1) with
            | .ok b => (.ok b, 2, [1000])
            | .fail _ => (.fail e, 2, [1000])
          else
            (.fail e, 1, [])
      | none => (.fail e, 1, [])

/-! ## The retry wrapper `handleApiRequest` (api.js lines 127-196) -/

/-- The wrapper's break condition (api.js line 145): a response with a
4xx status other than 401 is never retried by the wrapper. -/
def isNonAuthClientError (e : RawError) : Bool :=
  match e.response with
  | some r => decide (400 ≤ r.status) && decide (r.status < 500) && r.status != 401
  | none => false

/-- Accumulated outcome of the wrapper's retry loop: the successful body
if any, the `lastError` variable, the total number of underlying
dispatches, the backoff sleeps performed (in order), and the interceptor
refresh waits performed. -/
structure LoopOut where
  outcome : Option String
  lastError : Option RawError
  dispatches : Nat
  delays : List Nat
  waits : List Nat
  deriving Repr, DecidableEq

/-- The `for (attempt = 0; attempt <= retries; attempt++)` loop of
`handleApiRequest`, structurally recursive on the remaining iteration
fuel (`fuel = retries + 1 - attempt` at the canonical entry). Each
iteration first sleeps `retryDelay * attempt` when `attempt > 0`, then
runs one intercepted call; a success returns its body, a 4xx non-401
failure breaks, the last allowed attempt breaks, and anything else
(including 401, 5xx, network and timeout failures) retries. -/
def handleLoop (env : Nat → DispatchResult) (retries retryDelay : Nat) :
    Nat → Nat → Nat → List Nat → List Nat → Option RawError → LoopOut
  | 0, _, dIdx, delays, waits, lastErr => ⟨none, lastErr, dIdx, delays, waits⟩
  | fuel + 1, attempt, dIdx, delays, waits, lastErr =>
      let delays := if 0 < attempt then delays ++ [retryDelay * attempt] else delays
      match interceptedCall env dIdx with
      | (.ok b, n, w) => ⟨some b, lastErr, dIdx + n, delays, waits ++ w⟩
      | (.fail e, n, w) =>
          if isNonAuthClientError e then
            ⟨none, some e, dIdx + n, delays, waits ++ w⟩
          else if attempt == retries then
            ⟨none, some e, dIdx + n, delays, waits ++ w⟩
          else
            handleLoop env retries retryDelay fuel (attempt + 1) (dIdx + n)
              delays (waits ++ w) (some e)

/-- The user-facing message built for a failed request (api.js lines
168-190): a fixed server-error banner for status 500, extended with the
server-supplied `detail` when present; `detail` alone for other response
errors carrying one; `Error <status>: <statusText>` otherwise; and for
responseless failures the raw transport message, replaced by a fixed
timeout message when it mentions `timeout`, or the unknown-error banner
when the message is empty. -/
def formatErrorMessage (e : RawError) : String :=
  match e.response with
  | some r =>
      if r.status == 500 then
        match r.detail with
        | some d => "Server error: The application encountered an internal error - " ++ d
        | none => "Server error: The application encountered an internal error"
      else
        match r.detail with
        | some d => d
        | none => "Error " ++ toString r.status ++ ": " ++ r.statusText
  | none =>
      if e.message == "" then "An unknown error occurred"
      else if jsIncludes e.message "timeout" then
        "Request timed out. Please check your connection and try again."
      else e.message

/-- The normalized error `handleApiRequest` throws: a fresh `Error` whose
message is the formatted one, keeping the raw error as `originalError`. -/
structure EnhancedError where
  message : String
  originalError : RawError
  deriving Repr, DecidableEq

/-- Observable outcome of one `handleApiRequest` call: the returned body
or the thrown normalized error, plus the dispatch count, backoff sleeps
and interceptor refresh waits. -/
structure ApiOutcome where
  result : Except EnhancedError String
  dispatches : Nat
  delays : List Nat
  waits : List Nat
  deriving Repr

/-- `handleApiRequest(apiCall, {retries, retryDelay})` (api.js lines
127-196): run the retry loop from attempt 0 and, when every attempt
failed, throw the normalized error built from `lastError`. The loop runs
at least one iteration, so the `lastError = null` fallback arm is
unreachable from this entry point. -/
def handleApiRequest (env : Nat → DispatchResult) (retries retryDelay : Nat) :
    ApiOutcome :=
  let out := handleLoop env retries retryDelay (retries + 1) 0 0 [] [] none
  match out.outcome, out.lastError with
  | some b, _ => ⟨.ok b, out.dispatches, out.delays, out.waits⟩
  | none, some e => ⟨.error ⟨formatErrorMessage e, e⟩, out.dispatches, out.delays, out.waits⟩
  | none, none => ⟨.error ⟨"An unknown error occurred", ⟨none, ""⟩⟩,
      out.dispatches, out.delays, out.waits⟩

/-- An environment in which every dispatch fails the same way. -/
def constFailEnv (e : RawError) : Nat → DispatchResult := fun _ => .fail e

/-- A 401 response error as axios would deliver it. -/
def err401 : RawError :=
  ⟨some ⟨401, "Unauthorized", none⟩, "Request failed with status code 401"⟩

/-- A 500 response error carrying a server-supplied detail field. -/
def err500 (d : Option String) : RawError :=
  ⟨some ⟨500, "Internal Server Error", d⟩, "Request failed with status code 500"⟩

/-- A 404 response error. -/
def err404 : RawError :=
  ⟨some ⟨404, "Not Found", none⟩, "Request failed with status code 404"⟩

/-- A responseless network failure with axios's raw message. -/
def errNetwork : RawError := ⟨none, "Network Error"⟩

/-- An environment that answers 401 to the first dispatch and succeeds
afterwards: the internal-auth-retry scenario. -/
def env401Then200 : Nat → DispatchResult := fun n =>
  if n == 0 then .fail err401 else .ok "body"

/-- Per-wrapper-attempt cost of one intercepted call against a
constant-failure environment: the number of underlying dispatches and the
refresh waits it consumes (two dispatches and one 1000 ms wait for a 401,
one dispatch otherwise). -/
def callShape (e : RawError) : Nat × List Nat :=
  match e.response with
  | some r => if r.status == 401 then (2, [1000]) else (1, [])
  | none => (1, [])

/-! ## Helper lemmas about the concurrent model -/

lemma runSched_append (now : Int) (f : FetchOutcome) :
    ∀ (l1 l2 : List SchedStep) (c : ConcState),
      runSched now f c (l1 ++ l2) = runSched now f (runSched now f c l1) l2 := by
  intro l1
  induction l1 with
  | nil => intro l2 c; rfl
  | cons s t ih => intro l2 c; cases s <;> simp [runSched, ih]

lemma doSettle_providerCalls (now : Int) (f : FetchOutcome) (c : ConcState) (i : Nat) :
    (doSettle now f c i).providerCalls = c.providerCalls := by
  unfold doSettle
  split <;> rfl

lemma runSched_settles_providerCalls (now : Int) (f : FetchOutcome) :
    ∀ (l : List Nat) (c : ConcState),
      (runSched now f c (l.map SchedStep.settle)).providerCalls = c.providerCalls := by
  intro l
  induction l with
  | nil => intro c; rfl
  | cons i t ih =>
      intro c
      simp only [List.map_cons, runSched]
      rw [ih, doSettle_providerCalls]

lemma runSched_checks_stale (now : Int) (f : FetchOutcome) :
    ∀ (l : List Nat) (c : ConcState),
      c.auth.signedIn = true →
      (tokenTruthy c.auth.cachedToken
        && decide (c.auth.tokenExpiry > now + TOKEN_REFRESH_THRESHOLD)) = false →
      l.Nodup →
      (∀ i ∈ l, c.tasks[i]? = some .ready) →
      (runSched now f c (l.map SchedStep.check)).providerCalls
        = c.providerCalls + l.length := by
  intro l
  induction l with
  | nil => intro c _ _ _ _; rfl
  | cons i t ih =>
      intro c hsig hstale hnd hready
      have hi : c.tasks[i]? = some TaskState.ready := hready i (by simp)
      have hstep : doCheck now c i
          = { c with providerCalls := c.providerCalls + 1,
                     tasks := c.tasks.set i .fetching } := by
        simp [doCheck, hi, hsig, hstale]
      simp only [List.map_cons, runSched, hstep]
      rw [ih]
      · simp only [List.length_cons]
        omega
      · exact hsig
      · exact hstale
      · exact hnd.of_cons
      · intro j hj
        have hne : i ≠ j := by
          rintro rfl
          exact (List.nodup_cons.mp hnd).1 hj
        simpa [List.getElem?_set_ne hne] using hready j (List.mem_cons_of_mem _ hj)

/-! ## Helper lemmas about the retry wrapper -/

lemma interceptedCall_constFail (e : RawError) (start : Nat) :
    interceptedCall (constFailEnv e) start
      = (.fail e, (callShape e).1, (callShape e).2) := by
  obtain ⟨resp, msg⟩ := e
  cases resp with
  | none => rfl
  | some r =>
      by_cases h4 : r.status == 401 <;>
        simp [interceptedCall, constFailEnv, callShape, h4]

lemma handleLoop_constFail (e : RawError) (he : isNonAuthClientError e = false)
    (retries retryDelay : Nat) :
    ∀ (fuel attempt dIdx : Nat) (delays waits : List Nat) (lastErr : Option RawError),
      attempt + fuel = retries + 1 → 1 ≤ fuel →
      ∃ w, handleLoop (constFailEnv e) retries retryDelay fuel attempt
          dIdx delays waits lastErr
        = ⟨none, some e, dIdx + (callShape e).1 * fuel,
            delays ++ (List.range' (max attempt 1) (retries + 1 - max attempt 1)).map
              (fun j => retryDelay * j), w⟩ := by
  intro fuel
  induction fuel with
  | zero => intro _ _ _ _ _ _ hf; omega
  | succ fuel ih =>
      intro attempt dIdx delays waits lastErr hsum _
      by_cases har : attempt = retries
      · have hf0 : fuel = 0 := by omega
        subst hf0
        subst har
        refine ⟨waits ++ (callShape e).2, ?_⟩
        simp only [handleLoop, interceptedCall_constFail, he, beq_self_eq_true,
          Bool.false_eq_true, if_false, if_true, Nat.mul_one]
        by_cases h0 : 0 < attempt
        · have hmax : max attempt 1 = attempt := by omega
          have hcnt : attempt + 1 - max attempt 1 = 1 := by omega
          simp [h0, hmax, hcnt, List.range']
        · have ha0 : attempt = 0 := by omega
          subst ha0
          simp [List.range']
      · have h1 : 1 ≤ fuel := by omega
        obtain ⟨w, hw⟩ := ih (attempt + 1) (dIdx + (callShape e).1)
          (if 0 < attempt then delays ++ [retryDelay * attempt] else delays)
          (waits ++ (callShape e).2) (some e) (by omega) h1
        refine ⟨w, ?_⟩
        have hbeq : (attempt == retries) = false := by simp [har]
        simp only [handleLoop, interceptedCall_constFail, he, hbeq,
          Bool.false_eq_true, if_false]
        rw [hw]
        have hdisp : dIdx + (callShape e).1 + (callShape e).1 * fuel
            = dIdx + (callShape e).1 * (fuel + 1) := by
          rw [Nat.mul_succ]; omega
        have hatt : attempt < retries := by omega
        have hdel : (if 0 < attempt then delays ++ [retryDelay * attempt] else delays)
            ++ (List.range' (max (attempt + 1) 1) (retries + 1 - max (attempt + 1) 1)).map
              (fun j => retryDelay * j)
            = delays ++ (List.range' (max attempt 1) (retries + 1 - max attempt 1)).map
              (fun j => retryDelay * j) := by
          by_cases h0 : 0 < attempt
          · have hm1 : max (attempt + 1) 1 = attempt + 1 := by omega
            have hm2 : max attempt 1 = attempt := by omega
            have hc : retries + 1 - attempt = (retries - attempt) + 1 := by omega
            have hc2 : retries + 1 - (attempt + 1) = retries - attempt := by omega
            rw [hm1, hm2, hc, hc2, List.range'_succ]
            simp [h0]
          · have ha0 : attempt = 0 := by omega
            simp [ha0]
        rw [hdisp, hdel]

lemma handleApiRequest_constFail (e : RawError) (he : isNonAuthClientError e = false)
    (retries retryDelay : Nat) :
    (handleApiRequest (constFailEnv e) retries retryDelay).result
        = .error ⟨formatErrorMessage e, e⟩
    ∧ (handleApiRequest (constFailEnv e) retries retryDelay).dispatches
        = (callShape e).1 * (retries + 1)
    ∧ (handleApiRequest (constFailEnv e) retries retryDelay).delays
        = (List.range' 1 retries).map (fun j => retryDelay * j) := by
  obtain ⟨w, hw⟩ := handleLoop_constFail e he retries retryDelay (retries + 1) 0 0
    [] [] none (by omega) (by omega)
  refine ⟨?_, ?_, ?_⟩ <;> simp only [handleApiRequest, hw] <;> simp

lemma handleLoop_breakFirst (env : Nat → DispatchResult) (retries d : Nat)
    (e : RawError) (n : Nat) (w : List Nat)
    (hc : interceptedCall env 0 = (.fail e, n, w))
    (he : isNonAuthClientError e = true) :
    handleLoop env retries d (retries + 1) 0 0 [] [] none
      = ⟨none, some e, n, [], w⟩ := by
  simp [handleLoop, hc, he]

/-! ## Claim C1 — single-flight refresh -/

/-- C1, counterexample. The claim says N (≥ 2) concurrent refresh calls
while no refresh is pending make exactly one identity-provider call. In
the code, two `getAuthToken()` calls that both run their synchronous
prefix before either fetch settles (signed-in user, empty cache, no
refresh pending) each start their own `getIdToken(true)` call: two
provider calls, not one. -/
theorem singleFlight_violation_two_callers :
    (runSched 0 (.ok ⟨"tok", some 3600⟩) (initConc 2)
        [SchedStep.check 0, .check 1, .settle 0, .settle 1]).providerCalls = 2
    ∧ (runSched 0 (.ok ⟨"tok", some 3600⟩) (initConc 2)
        [SchedStep.check 0, .check 1, .settle 0, .settle 1]).providerCalls ≠ 1 := by
  exact ⟨rfl, by decide⟩

/-- C1, amended. `getAuthToken` has no single-flight guard: n concurrent
invocations that all begin (run their synchronous prefix) while no fresh
token is cached and no refresh is pending issue n identity-provider
calls, one per caller.  (The `tokenRefreshPromise` in the api.js 401
interceptor deduplicates only its stubbed 1-second wait and performs no
identity-provider call at all.) -/
theorem concurrent_stale_getAuthToken_calls_scale_linearly (n : Nat) :
    (runSched 0 (.ok ⟨"tok", some 3600⟩) (initConc n)
        (concurrentSchedule n)).providerCalls = n := by
  have hready : ∀ i ∈ List.range n, (initConc n).tasks[i]? = some TaskState.ready := by
    intro i hi
    have h := List.mem_range.mp hi
    simp [initConc, List.getElem?_replicate, h]
  have h1 := runSched_checks_stale 0 (.ok ⟨"tok", some 3600⟩) (List.range n)
      (initConc n) rfl rfl (List.nodup_range n) hready
  unfold concurrentSchedule
  rw [runSched_append, runSched_settles_providerCalls, h1]
  simp [initConc]

/-! ## Claim C2 — auth-retry cap -/

/-- C2, counterexample. The claim says a descriptor that always yields
401 is attempted exactly twice. With the default configuration the code
makes six underlying dispatches: the wrapper loop does not break on 401
(api.js line 145 excludes it from the 4xx break), so each of its three
attempts goes through the interceptor, which dispatches twice. -/
theorem auth_retry_cap_violation_six_dispatches :
    (handleApiRequest (constFailEnv err401) MAX_RETRIES RETRY_DELAY).dispatches = 6
    ∧ (handleApiRequest (constFailEnv err401) MAX_RETRIES RETRY_DELAY).dispatches ≠ 2 := by
  exact ⟨rfl, by decide⟩

/-- C2, amended. A descriptor that always yields 401 (even after the
interceptor's refresh wait) is attempted `2 * (retries + 1)` times in
total — each of the `retries + 1` wrapper attempts dispatches twice, the
original dispatch plus the interceptor's one auth-retry — six with the
defaults, and then terminates with the normalized error wrapping the
401. -/
theorem always401_descriptor_dispatch_count (retries d : Nat) :
    (handleApiRequest (constFailEnv err401) retries d).dispatches = 2 * (retries + 1)
    ∧ (handleApiRequest (constFailEnv err401) retries d).result
        = .error ⟨"Error 401: Unauthorized", err401⟩ := by
  have h := handleApiRequest_constFail err401 rfl retries d
  refine ⟨?_, ?_⟩
  · rw [h.2.1]
    rfl
  · rw [h.1]
    rfl

/-! ## Claim C3 — no silent unauthenticated fallback (claimed) -/

/-- C3, counterexample. The claim says a failed token refresh surfaces an
AuthError for the request and the request is never dispatched without an
Authorization token. In the code, with a signed-in user, an empty cache
and a failing identity-provider fetch, `getAuthToken` resolves `null`,
and the request interceptor still returns the config — the request is
dispatched with no Authorization header. -/
theorem tokenless_dispatch_on_refresh_failure :
    (getAuthToken false 0 .err ⟨true, none, 0⟩).ret = none
    ∧ (requestInterceptor ⟨false⟩ 0 .err ⟨true, none, 0⟩).providerCalls = 1
    ∧ (requestInterceptor ⟨false⟩ 0 .err ⟨true, none, 0⟩).header = none := by
  exact ⟨rfl, rfl, rfl⟩

/-- C3, amended. Whenever obtaining or refreshing the token fails (the
refresh resolves `null`), the request interceptor attaches no
Authorization header and the request is dispatched anyway — a silent
unauthenticated fallback; no AuthError is surfaced before dispatch. -/
theorem null_token_dispatches_without_header (cfg : ReqConfig) (now : Int)
    (fetch : FetchOutcome) (s : AuthState)
    (h : (getAuthToken false now fetch s).ret = none) :
    (requestInterceptor cfg now fetch s).header = none := by
  unfold requestInterceptor
  by_cases hna : cfg.noAuth <;> simp [hna, h, tokenTruthy]

/-- Witness for the amended C3 theorem at a concrete input. -/
theorem null_token_dispatches_without_header_instance :
    (requestInterceptor ⟨false⟩ 5 .err ⟨true, none, 0⟩).header = none :=
  null_token_dispatches_without_header ⟨false⟩ 5 .err ⟨true, none, 0⟩ rfl

/-! ## Helper lemmas about `getAuthToken` and the request interceptor -/

lemma getAuthToken_signedOut (force : Bool) (now : Int) (fetch : FetchOutcome)
    (s : AuthState) (hs : s.signedIn = false) :
    getAuthToken force now fetch s = ⟨none, { s with cachedToken := none }, 0⟩ := by
  unfold getAuthToken
  simp [hs]

lemma getAuthToken_fresh (now : Int) (fetch : FetchOutcome) (s : AuthState)
    (hs : s.signedIn = true)
    (hfresh : (tokenTruthy s.cachedToken
      && decide (s.tokenExpiry > now + TOKEN_REFRESH_THRESHOLD)) = true) :
    getAuthToken false now fetch s = ⟨s.cachedToken, s, 0⟩ := by
  unfold getAuthToken
  simp [hs, hfresh]

lemma getAuthToken_stale (now : Int) (fetch : FetchOutcome) (s : AuthState)
    (hs : s.signedIn = true)
    (hfresh : (tokenTruthy s.cachedToken
      && decide (s.tokenExpiry > now + TOKEN_REFRESH_THRESHOLD)) = false) :
    getAuthToken false now fetch s = refreshSettle now fetch s := by
  unfold getAuthToken
  simp [hs, hfresh]

lemma requestInterceptor_withAuth (cfg : ReqConfig) (now : Int)
    (fetch : FetchOutcome) (s : AuthState) (h : cfg.noAuth = false) :
    requestInterceptor cfg now fetch s
      = (if tokenTruthy (getAuthToken false now fetch s).ret then
          ⟨(getAuthToken false now fetch s).ret,
            (getAuthToken false now fetch s).state,
            (getAuthToken false now fetch s).providerCalls⟩
        else
          ⟨none, (getAuthToken false now fetch s).state,
            (getAuthToken false now fetch s).providerCalls⟩) := by
  unfold requestInterceptor
  simp [h]

lemma threshold_pos : (0 : Int) < TOKEN_REFRESH_THRESHOLD := by decide

/-! ## Claim C4 — no stale token is ever attached -/

/-- C4, confirmed. Under the standing assumption that tokens issued by
the identity provider carry a decoded expiry in the future, every token
the request interceptor attaches has its expiry in the future at attach
time; in particular a cached token whose expiry is not in the future is
never attached from the cache — when a token is attached in that
situation it came from a fresh identity-provider call. -/
theorem no_stale_token_attached (cfg : ReqConfig) (now : Int) (fetch : FetchOutcome)
    (s : AuthState)
    (hfetch : ∀ r e, fetch = .ok r → r.decodedExp = some e → now < e * 1000) :
    ((requestInterceptor cfg now fetch s).header.isSome = true →
      now < (requestInterceptor cfg now fetch s).state.tokenExpiry)
    ∧ (s.tokenExpiry ≤ now → (requestInterceptor cfg now fetch s).header.isSome = true →
      (requestInterceptor cfg now fetch s).providerCalls = 1) := by
  by_cases hna : cfg.noAuth = true
  · simp [requestInterceptor, hna]
  · have hna' : cfg.noAuth = false := Bool.eq_false_iff.mpr hna
    rw [requestInterceptor_withAuth cfg now fetch s hna']
    by_cases hsig : s.signedIn = true
    · by_cases hfresh : (tokenTruthy s.cachedToken
          && decide (s.tokenExpiry > now + TOKEN_REFRESH_THRESHOLD)) = true
      · have hcmp : now + TOKEN_REFRESH_THRESHOLD < s.tokenExpiry := by
          have h := (Bool.and_eq_true ..).mp hfresh
          exact of_decide_eq_true h.2
        have hT := threshold_pos
        rw [getAuthToken_fresh now fetch s hsig hfresh]
        have htr : tokenTruthy s.cachedToken = true :=
          ((Bool.and_eq_true ..).mp hfresh).1
        simp only [htr, if_true]
        exact ⟨fun _ => by omega, fun hle => by omega⟩
      · have hfresh' : (tokenTruthy s.cachedToken
            && decide (s.tokenExpiry > now + TOKEN_REFRESH_THRESHOLD)) = false :=
          Bool.eq_false_iff.mpr hfresh
        rw [getAuthToken_stale now fetch s hsig hfresh']
        cases fetch with
        | err => simp [refreshSettle, tokenTruthy]
        | ok r =>
            simp only [refreshSettle]
            by_cases htr : tokenTruthy (some r.token) = true
            · simp only [htr, if_true]
              refine ⟨?_, by intro _ _; trivial⟩
              intro _
              cases hde : r.decodedExp with
              | none => simp only [hde]; omega
              | some ex =>
                  have hlt := hfetch r ex rfl hde
                  simp only [hde]
                  omega
            · have htr' : tokenTruthy (some r.token) = false :=
                Bool.eq_false_iff.mpr htr
              simp [htr']
    · have hsig' : s.signedIn = false := Bool.eq_false_iff.mpr hsig
      rw [getAuthToken_signedOut false now fetch s hsig']
      simp [tokenTruthy]

/-- Witness for the C4 theorem: a stale state with a decodable fresh
fetched token leads to an attach whose expiry is in the future, through
exactly one provider call. -/
theorem no_stale_token_attached_instance :
    (0 : Int) < (requestInterceptor ⟨false⟩ 0 (.ok ⟨"t", some 10⟩)
        ⟨true, none, 0⟩).state.tokenExpiry
    ∧ (requestInterceptor ⟨false⟩ 0 (.ok ⟨"t", some 10⟩)
        ⟨true, none, 0⟩).providerCalls = 1 := by
  have h := no_stale_token_attached ⟨false⟩ 0 (.ok ⟨"t", some 10⟩) ⟨true, none, 0⟩
    (by rintro r e h1 h2; cases h1; cases h2; decide)
  exact ⟨h.1 rfl, h.2 (by decide) rfl⟩

/-! ## Claim C5 — freshness decision of `getAuthToken` -/

/-- C5, counterexample. The claim says that when no fresh cached token is
available, a fresh token is fetched from the identity provider before
returning. With no signed-in user `getAuthToken()` returns `null` without
contacting the provider at all, even though no (fresh) cached token
exists. -/
theorem getAuthToken_no_fetch_when_signed_out :
    (getAuthToken false 0 (.ok ⟨"t", some 10⟩) ⟨false, none, 0⟩).providerCalls = 0
    ∧ (getAuthToken false 0 (.ok ⟨"t", some 10⟩) ⟨false, none, 0⟩).ret = none := by
  exact ⟨rfl, rfl⟩

/-- C5, amended. For every `getAuthToken` call without `forceRefresh`
while a user is signed in: the cached token is returned with no
identity-provider contact iff a (truthy) cached token exists and
`now + threshold < expiresAt`, the threshold being fixed at five
minutes; otherwise exactly one identity-provider fetch is made before
returning. -/
theorem cached_token_freshness_decision (s : AuthState) (now : Int)
    (fetch : FetchOutcome) (hs : s.signedIn = true) :
    TOKEN_REFRESH_THRESHOLD = 5 * 60 * 1000
    ∧ (((getAuthToken false now fetch s).providerCalls = 0
        ∧ (getAuthToken false now fetch s).ret = s.cachedToken)
      ↔ (tokenTruthy s.cachedToken = true
        ∧ now + TOKEN_REFRESH_THRESHOLD < s.tokenExpiry))
    ∧ (¬(tokenTruthy s.cachedToken = true
        ∧ now + TOKEN_REFRESH_THRESHOLD < s.tokenExpiry)
      → (getAuthToken false now fetch s).providerCalls = 1) := by
  have hcalls : (refreshSettle now fetch s).providerCalls = 1 := by
    cases fetch <;> rfl
  refine ⟨rfl, ?_, ?_⟩
  · by_cases hfresh : (tokenTruthy s.cachedToken
        && decide (s.tokenExpiry > now + TOKEN_REFRESH_THRESHOLD)) = true
    · have hp := (Bool.and_eq_true ..).mp hfresh
      rw [getAuthToken_fresh now fetch s hs hfresh]
      exact ⟨fun _ => ⟨hp.1, of_decide_eq_true hp.2⟩, fun _ => ⟨rfl, rfl⟩⟩
    · have hfresh' : (tokenTruthy s.cachedToken
          && decide (s.tokenExpiry > now + TOKEN_REFRESH_THRESHOLD)) = false :=
        Bool.eq_false_iff.mpr hfresh
      rw [getAuthToken_stale now fetch s hs hfresh']
      constructor
      · intro hc
        exfalso
        rw [hcalls] at hc
        exact absurd hc.1 (by omega)
      · intro hc
        exfalso
        apply hfresh
        rw [Bool.and_eq_true]
        exact ⟨hc.1, decide_eq_true hc.2⟩
  · intro hnot
    have hfresh : (tokenTruthy s.cachedToken
        && decide (s.tokenExpiry > now + TOKEN_REFRESH_THRESHOLD)) = false := by
      rw [Bool.and_eq_false_iff]
      by_cases h1 : tokenTruthy s.cachedToken = true
      · right
        rw [decide_eq_false_iff_not]
        intro h2
        exact hnot ⟨h1, h2⟩
      · left
        exact Bool.eq_false_iff.mpr h1
    rw [getAuthToken_stale now fetch s hs hfresh]
    exact hcalls

/-- Witness for the amended C5 theorem: a fresh cached token is reused
without a provider call. -/
theorem cached_token_freshness_decision_instance :
    (getAuthToken false 0 .err ⟨true, some "tok", 10000000⟩).providerCalls = 0
    ∧ (getAuthToken false 0 .err ⟨true, some "tok", 10000000⟩).ret = some "tok" := by
  have h := cached_token_freshness_decision ⟨true, some "tok", 10000000⟩ 0 .err rfl
  exact h.2.1.mpr ⟨by decide, by decide⟩

/-! ## Claim C6 — retry bound for server errors -/

/-- C6, confirmed. A descriptor that always yields a ServerError — any
response status in [500, 599], with arbitrary status text, detail body
and transport message — is attempted exactly `1 + retries` times, three
with the default `MAX_RETRIES = 2`, and then terminates with the
normalized server-error result. -/
theorem server_error_retry_bound (status : Nat) (stext : String)
    (detail : Option String) (msg : String) (retries d : Nat)
    (h1 : 500 ≤ status) (h2 : status ≤ 599) :
    (handleApiRequest (constFailEnv ⟨some ⟨status, stext, detail⟩, msg⟩)
        retries d).dispatches = retries + 1
    ∧ (handleApiRequest (constFailEnv ⟨some ⟨status, stext, detail⟩, msg⟩)
        retries d).result
      = .error ⟨formatErrorMessage ⟨some ⟨status, stext, detail⟩, msg⟩,
          ⟨some ⟨status, stext, detail⟩, msg⟩⟩
    ∧ (handleApiRequest (constFailEnv ⟨some ⟨status, stext, detail⟩, msg⟩)
        MAX_RETRIES RETRY_DELAY).dispatches = 3 := by
  have hne : (status == 401) = false := by
    simp
    omega
  have he : isNonAuthClientError ⟨some ⟨status, stext, detail⟩, msg⟩ = false := by
    simp [isNonAuthClientError]
    omega
  have hcs : (callShape ⟨some ⟨status, stext, detail⟩, msg⟩).1 = 1 := by
    simp [callShape, hne]
  have h := handleApiRequest_constFail ⟨some ⟨status, stext, detail⟩, msg⟩ he retries d
  have h3 := handleApiRequest_constFail ⟨some ⟨status, stext, detail⟩, msg⟩ he
    MAX_RETRIES RETRY_DELAY
  refine ⟨?_, h.1, ?_⟩
  · rw [h.2.1, hcs, Nat.one_mul]
  · rw [h3.2.1, hcs]
    rfl

/-- Witness for the C6 theorem at an always-503 descriptor with the
default configuration. -/
theorem server_error_retry_bound_instance :
    (handleApiRequest (constFailEnv ⟨some ⟨503, "Service Unavailable", none⟩,
        "Request failed with status code 503"⟩) MAX_RETRIES RETRY_DELAY).dispatches
      = 3 :=
  (server_error_retry_bound 503 "Service Unavailable" none
    "Request failed with status code 503" MAX_RETRIES RETRY_DELAY
    (by decide) (by decide)).2.2

/-! ## Claim C7 — client errors are never retried -/

/-- C7, confirmed. A descriptor whose dispatch yields a response status
in [400, 499] other than 401 is attempted exactly once, and the
classified client error surfaces immediately as the normalized error. -/
theorem client_error_single_attempt (status : Nat) (stext : String)
    (detail : Option String) (msg : String) (retries d : Nat)
    (h1 : 400 ≤ status) (h2 : status < 500) (h3 : status ≠ 401) :
    (handleApiRequest (constFailEnv ⟨some ⟨status, stext, detail⟩, msg⟩)
        retries d).dispatches = 1
    ∧ (handleApiRequest (constFailEnv ⟨some ⟨status, stext, detail⟩, msg⟩)
        retries d).result
      = .error ⟨formatErrorMessage ⟨some ⟨status, stext, detail⟩, msg⟩,
          ⟨some ⟨status, stext, detail⟩, msg⟩⟩ := by
  have hne : (status == 401) = false := by simp [h3]
  have hc : interceptedCall (constFailEnv ⟨some ⟨status, stext, detail⟩, msg⟩) 0
      = (.fail ⟨some ⟨status, stext, detail⟩, msg⟩, 1, []) := by
    simp [interceptedCall, constFailEnv, hne]
  have he : isNonAuthClientError ⟨some ⟨status, stext, detail⟩, msg⟩ = true := by
    simp [isNonAuthClientError, hne]
    omega
  have hloop := handleLoop_breakFirst (constFailEnv ⟨some ⟨status, stext, detail⟩, msg⟩)
    retries d ⟨some ⟨status, stext, detail⟩, msg⟩ 1 [] hc he
  constructor <;> simp only [handleApiRequest, hloop]

/-- Witness for the C7 theorem at a 404 response. -/
theorem client_error_single_attempt_instance :
    (handleApiRequest (constFailEnv err404) MAX_RETRIES RETRY_DELAY).dispatches = 1 :=
  (client_error_single_attempt 404 "Not Found" none
    "Request failed with status code 404" MAX_RETRIES RETRY_DELAY
    (by decide) (by decide) (by decide)).1

/-! ## Claim C8 — normalized error messages (claimed distinct from raw) -/

/-- C8, counterexample. The claim says every surfaced error carries a
message distinct from the raw transport message. A responseless network
failure whose message does not mention timeout is surfaced with the raw
transport message passed through unchanged: the surfaced message equals
`errNetwork.message`. -/
theorem raw_network_message_passthrough :
    (handleApiRequest (constFailEnv errNetwork) MAX_RETRIES RETRY_DELAY).result
      = .error ⟨errNetwork.message, errNetwork⟩
    ∧ errNetwork.message = "Network Error" := by
  exact ⟨rfl, rfl⟩

/-- C8, amended. Every error surfaced by the wrapper is a fresh
normalized error value carrying the formatted display message and the
original raw error; for a ServerError (status 500) the message is the
fixed server-error banner extended with the server-supplied `detail`
whenever the response body carries one, and is then distinct from the
raw transport message — but a responseless transport failure whose
message does not mention timeout has its raw message passed through. -/
theorem server_error_detail_in_message (dtl : String) (retries d : Nat) :
    (handleApiRequest (constFailEnv (err500 (some dtl))) retries d).result
      = .error ⟨"Server error: The application encountered an internal error - " ++ dtl,
          err500 (some dtl)⟩
    ∧ ("Server error: The application encountered an internal error - " ++ dtl)
        ≠ (err500 (some dtl)).message
    ∧ (handleApiRequest (constFailEnv (err500 none)) retries d).result
      = .error ⟨"Server error: The application encountered an internal error",
          err500 none⟩ := by
  refine ⟨?_, ?_, ?_⟩
  · rw [(handleApiRequest_constFail (err500 (some dtl)) rfl retries d).1]
    rfl
  · intro hEq
    have hlen := congrArg String.length hEq
    rw [String.length_append] at hlen
    have hL : ("Server error: The application encountered an internal error - ").length
        = 62 := by rfl
    have hR : ((err500 (some dtl)).message).length = 35 := by rfl
    omega
  · rw [(handleApiRequest_constFail (err500 none) rfl retries d).1]
    rfl

/-- Witness for the amended C8 theorem at a concrete detail string. -/
theorem server_error_detail_in_message_instance :
    (handleApiRequest (constFailEnv (err500 (some "boom"))) MAX_RETRIES
        RETRY_DELAY).result
      = .error ⟨"Server error: The application encountered an internal error - boom",
          err500 (some "boom")⟩ := by
  have h := (server_error_detail_in_message "boom" MAX_RETRIES RETRY_DELAY).1
  rw [h]
  rfl

/-! ## Claim C9 — linear backoff delays; the auth-retry skips them -/

/-- C9, confirmed. For any constant failure the wrapper retries (anything
but a 4xx non-401 response), the backoff sleeps performed are exactly
`baseDelay * n` before the n-th resubmission, for n from 1 to `retries`;
and the interceptor's single auth-retry on a 401 (here followed by a
success) performs no backoff sleep at all — only the stubbed refresh
wait — while still re-dispatching. -/
theorem linear_backoff_and_auth_retry_no_delay :
    (∀ (e : RawError) (retries d : Nat), isNonAuthClientError e = false →
      (handleApiRequest (constFailEnv e) retries d).delays
        = (List.range' 1 retries).map (fun j => d * j))
    ∧ (handleApiRequest env401Then200 MAX_RETRIES RETRY_DELAY).result = .ok "body"
    ∧ (handleApiRequest env401Then200 MAX_RETRIES RETRY_DELAY).dispatches = 2
    ∧ (handleApiRequest env401Then200 MAX_RETRIES RETRY_DELAY).delays = []
    ∧ (handleApiRequest env401Then200 MAX_RETRIES RETRY_DELAY).waits = [1000] := by
  refine ⟨?_, rfl, rfl, rfl, rfl⟩
  intro e retries d he
  exact (handleApiRequest_constFail e he retries d).2.2

/-- Witness for the C9 theorem: with the defaults against a constant
500, the sleeps are 800 ms then 1600 ms. -/
theorem linear_backoff_instance :
    (handleApiRequest (constFailEnv (err500 none)) 2 800).delays = [800, 1600] := by
  rw [linear_backoff_and_auth_retry_no_delay.1 (err500 none) 2 800 rfl]
  rfl

/-! ## Claim C10 — `getAuthToken` never throws, and its failure modes -/

/-- C10, confirmed. `getAuthToken` is total — every state resolves to a
token string or `null` (the embedding returns a `GATResult` on every
input, mirroring the try/catch around every throwing operation).
Specifically: with no signed-in user it resolves `null` and clears the
cache without a provider call; when a refresh is taken and the
identity-provider fetch fails it resolves `null` and clears the cached
token; and when the fetch succeeds but the JWT payload cannot be decoded
it keeps the fetched token and sets its expiry to one hour from now. -/
theorem getAuthToken_total_behavior (force : Bool) (now : Int) (fetch : FetchOutcome)
    (s : AuthState) :
    (s.signedIn = false →
      getAuthToken force now fetch s = ⟨none, { s with cachedToken := none }, 0⟩)
    ∧ (s.signedIn = true →
        (force = true ∨ (tokenTruthy s.cachedToken
          && decide (s.tokenExpiry > now + TOKEN_REFRESH_THRESHOLD)) = false) →
        fetch = .err →
        (getAuthToken force now fetch s).ret = none
        ∧ (getAuthToken force now fetch s).state.cachedToken = none
        ∧ (getAuthToken force now fetch s).providerCalls = 1)
    ∧ (∀ tok, s.signedIn = true →
        (force = true ∨ (tokenTruthy s.cachedToken
          && decide (s.tokenExpiry > now + TOKEN_REFRESH_THRESHOLD)) = false) →
        fetch = .ok ⟨tok, none⟩ →
        (getAuthToken force now fetch s).ret = some tok
        ∧ (getAuthToken force now fetch s).state.cachedToken = some tok
        ∧ (getAuthToken force now fetch s).state.tokenExpiry = now + 3600 * 1000
        ∧ (getAuthToken force now fetch s).providerCalls = 1) := by
  have hrefresh : ∀ (hs : s.signedIn = true),
      (force = true ∨ (tokenTruthy s.cachedToken
        && decide (s.tokenExpiry > now + TOKEN_REFRESH_THRESHOLD)) = false) →
      getAuthToken force now fetch s = refreshSettle now fetch s := by
    intro hs hcond
    have hfull : (!force && tokenTruthy s.cachedToken
        && decide (s.tokenExpiry > now + TOKEN_REFRESH_THRESHOLD)) = false := by
      rcases hcond with hforce | hstale
      · simp [hforce]
      · rw [Bool.and_assoc, hstale, Bool.and_false]
    unfold getAuthToken
    simp [hs, hfull]
  refine ⟨fun hs => getAuthToken_signedOut force now fetch s hs, ?_, ?_⟩
  · intro hs hcond hfe
    rw [hrefresh hs hcond, hfe]
    exact ⟨rfl, rfl, rfl⟩
  · intro tok hs hcond hfo
    rw [hrefresh hs hcond, hfo]
    exact ⟨rfl, rfl, rfl, rfl⟩

/-- Witness for the C10 theorem: all three branches at concrete inputs —
no user, failing fetch with a stale forced refresh, and a fetched token
with an undecodable payload. -/
theorem getAuthToken_total_behavior_instance :
    getAuthToken false 0 .err ⟨false, some "x", 5⟩ = ⟨none, ⟨false, none, 5⟩, 0⟩
    ∧ (getAuthToken true 0 .err ⟨true, some "old", 999999999⟩).ret = none
    ∧ (getAuthToken false 5 (.ok ⟨"fresh", none⟩) ⟨true, none, 0⟩).state.tokenExpiry
        = 5 + 3600 * 1000 := by
  refine ⟨?_, ?_, ?_⟩
  · exact (getAuthToken_total_behavior false 0 .err ⟨false, some "x", 5⟩).1 rfl
  · exact ((getAuthToken_total_behavior true 0 .err
      ⟨true, some "old", 999999999⟩).2.1 rfl (Or.inl rfl) rfl).1
  · exact ((getAuthToken_total_behavior false 5 (.ok ⟨"fresh", none⟩)
      ⟨true, none, 0⟩).2.2 "fresh" rfl (Or.inr rfl) rfl).2.2.1

end Todolist
